import Mathlib

/-
Verification of the banorte-payworks client library.

The operative class lives in src/unnamed/part_000 (the Payworks class with
its constructor and thirteen transaction methods, each delegating to the
static dispatch helper Payworks.request).  A legacy skeleton of the class,
with a different constructor and empty method bodies, lives in
src/lib/index.js.  The dispatch helper itself is loaded at part_000 line 338
from a module that is not part of the sources at hand, so its behaviour
(schema validation, credential merging, invocation adaptation, outcome
delivery) is modelled from the specification, sections 4.1 to 4.4 and 6.
-/

/-- A JavaScript primitive value as it appears in option and parameter
objects: a string or a number.  JS truthiness on these values is the
standard one (empty string and zero are falsy). -/
inductive JsVal where
  | str (s : String)
  | num (n : Int)
deriving DecidableEq, Repr

/-- JS truthiness of a primitive value. -/
def JsVal.truthy : JsVal → Bool
  | JsVal.str s => s != ""
  | JsVal.num n => n != 0

/-- JS truthiness of a possibly-absent value: undefined is falsy. -/
def jsTruthy : Option JsVal → Bool
  | none => false
  | some v => v.truthy

/-- The keys a constructor options object may carry that either constructor
in the repository reads: part_000 reads user, password, merchant, terminal;
the legacy src/lib/index.js constructor reads username, password, merchant,
terminal.  A key left out of a concrete JS object is modelled as none. -/
structure ConstructorOptions where
  username : Option JsVal := none
  user : Option JsVal := none
  password : Option JsVal := none
  merchant : Option JsVal := none
  terminal : Option JsVal := none
deriving DecidableEq, Repr

/-- The default credential object built by the part_000 constructor
(this.default).  A key is present exactly when it was assigned. -/
structure Creds where
  user : Option JsVal := none
  password : Option JsVal := none
  merchant_id : Option JsVal := none
  terminal_id : Option JsVal := none
deriving DecidableEq, Repr

/-- The state of a Payworks instance from src/unnamed/part_000: the four
instance properties set on lines 15-18 and the default credential object
built on lines 19-23. -/
structure Payworks where
  user : Option JsVal
  password : Option JsVal
  merchant_id : Option JsVal
  terminal_id : Option JsVal
  default : Creds
deriving DecidableEq, Repr

/-- The part_000 constructor, lines 12-24.  `options = options || {}` maps
undefined/null options to the empty object; `this.user && (this.default.user
= this.user)` records a default key only when the value is truthy. -/
def Payworks.constructor (options : Option ConstructorOptions) : Payworks :=
  let o := options.getD {}
  { user := o.user
    password := o.password
    merchant_id := o.merchant
    terminal_id := o.terminal
    default :=
      { user := if jsTruthy o.user then o.user else none
        password := if jsTruthy o.password then o.password else none
        merchant_id := if jsTruthy o.merchant then o.merchant else none
        terminal_id := if jsTruthy o.terminal then o.terminal else none } }

/-- The state of the legacy Payworks class from src/lib/index.js: the four
instance properties set on lines 11-14.  No default credential object is
built there. -/
structure PayworksIndex where
  username : Option JsVal
  password : Option JsVal
  merchant : Option JsVal
  terminal : Option JsVal
deriving DecidableEq, Repr

/-- The legacy constructor, src/lib/index.js lines 6-15. -/
def PayworksIndex.constructor (options : Option ConstructorOptions) : PayworksIndex :=
  let o := options.getD {}
  { username := o.username
    password := o.password
    merchant := o.merchant
    terminal := o.terminal }

/-- A caller-supplied parameter object: an arbitrary key/value mapping.
An absent key is none. -/
def Params := String → Option JsVal

/-- The kind of a declared schema field: a joi.number() or joi.string()
rule, as used in the per-method schema tables of part_000. -/
inductive FieldKind where
  | num
  | str
deriving DecidableEq, Repr

/-- One declared schema field: name, kind, required flag and optional max
length, exactly the shape of the joi rules in the per-method schema
objects of part_000 (for example line 49: card_exp is a required string of
max length 4). -/
structure SchemaField where
  name : String
  kind : FieldKind
  required : Bool
  maxLen : Option Nat
deriving DecidableEq, Repr

/-- A structured validation error, per spec section 4.1: each variant
names the offending field. -/
inductive ValidationError where
  | missing (field : String)
  | badType (field : String) (kind : FieldKind)
  | tooLong (field : String) (limit : Nat)
deriving DecidableEq, Repr

/-- Modelled from the spec: section 4.1 check of one declared field, used
by the Schema Validator of the dispatch helper (lib/request.js, loaded at
part_000 line 338 but absent from the sources).  Required absent fields
fail naming the field; numeric fields must be numbers or strings parsing
as numbers; string fields must be strings within the declared max length. -/
def checkField (f : SchemaField) (p : Params) : Option ValidationError :=
  match p f.name with
  | none => if f.required then some (ValidationError.missing f.name) else none
  | some v =>
    match f.kind, v with
    | FieldKind.num, JsVal.num _ => none
    | FieldKind.num, JsVal.str s =>
      if (s.toInt?).isSome then none else some (ValidationError.badType f.name FieldKind.num)
    | FieldKind.str, JsVal.num _ => some (ValidationError.badType f.name FieldKind.str)
    | FieldKind.str, JsVal.str s =>
      match f.maxLen with
      | some m => if s.length ≤ m then none else some (ValidationError.tooLong f.name m)
      | none => none

/-- Modelled from the spec: the Schema Validator of section 4.1, part of
the dispatch helper absent from the sources.  Declared fields are checked
in order; undeclared fields are passed through unvalidated (permissive
superset policy); on success the params are returned unchanged (the
normalized copy). -/
def validate (schema : List SchemaField) (p : Params) : Except ValidationError Params :=
  match schema with
  | [] => Except.ok p
  | f :: rest =>
    match checkField f p with
    | some e => Except.error e
    | none => validate rest p

/-- The names of the required fields of a schema. -/
def requiredNames : List SchemaField → List String
  | [] => []
  | f :: rest => if f.required then f.name :: requiredNames rest else requiredNames rest

/-- The params mapping p with key n set to value v (a JS property write). -/
def setField (p : Params) (n : String) (v : JsVal) : Params :=
  fun m => if m = n then some v else p m

/-- The params mapping p with key n removed (the key is absent). -/
def removeField (p : Params) (n : String) : Params :=
  fun m => if m = n then none else p m

/-- Modelled from the spec: the per-call options object of section 6, as
consumed by the Credential Merger of the dispatch helper absent from the
sources.  It may carry the four credential overrides. -/
structure PerCallOptions where
  username : Option JsVal := none
  password : Option JsVal := none
  merchant : Option JsVal := none
  terminal : Option JsVal := none
deriving DecidableEq, Repr

/-- The first present value, used for override-biased credential choice. -/
def firstSome (a b : Option JsVal) : Option JsVal :=
  match a with
  | some v => some v
  | none => b

/-- Modelled from the spec: the Credential Merger of section 4.2, part of
the dispatch helper absent from the sources.  A field present in the
per-call overrides wins; otherwise the client default is used; a field
absent from both stays absent (never sent as empty or null). -/
def merge (defaults : Creds) (o : PerCallOptions) : Creds :=
  { user := firstSome o.username defaults.user
    password := firstSome o.password defaults.password
    merchant_id := firstSome o.merchant defaults.merchant_id
    terminal_id := firstSome o.terminal defaults.terminal_id }

/-- A positional argument of a transaction method after params: in JS it
may be an options object or a callback function (functions are modelled by
an opaque numeric identity). -/
inductive Arg where
  | obj (o : PerCallOptions)
  | fn (id : Nat)
deriving DecidableEq, Repr

/-- Modelled from the spec: the Invocation Adapter of section 4.3, part of
the dispatch helper absent from the sources.  If the second trailing
argument is a function it is the callback and the first (if an object)
gives the per-call options; else if the first is a function it is the
callback with no per-call options; else there is no callback and the first
argument (if an object) gives the per-call options. -/
def adaptArgs (options callback : Option Arg) : Option Nat × Option PerCallOptions :=
  match callback with
  | some (Arg.fn f) =>
    (some f, match options with
             | some (Arg.obj o) => some o
             | _ => none)
  | _ =>
    match options with
    | some (Arg.fn f) => (some f, none)
    | some (Arg.obj o) => (none, some o)
    | none => (none, none)

/-- The request transmitted to the transport collaborator: operation code,
validated fields and merged credentials (spec section 3,
TransactionRequest). -/
structure TransactionRequest where
  opCode : String
  fields : Params
  creds : Creds

/-- The gateway-defined status indicator of a transport response body
(spec section 4.4 step 7). -/
inductive GatewayResponse where
  | approved (payload : String)
  | declined (reason : String)
  | unrecognized (desc : String)
deriving DecidableEq, Repr

/-- The result of one transport invocation (spec section 6): a response
body or a transport error. -/
inductive TransportResult where
  | ok (r : GatewayResponse)
  | err (msg : String)
deriving DecidableEq, Repr

/-- The transport collaborator consumed by the dispatch helper, an
external capability per spec section 6, passed explicitly in this model. -/
def Transport := TransactionRequest → TransportResult

/-- The non-success cause carried by a Failure Outcome (spec section 7). -/
inductive FailureKind where
  | validation (e : ValidationError)
  | transport (msg : String)
  | unexpected (desc : String)
deriving DecidableEq, Repr

/-- The terminal Outcome of one call (spec section 3): exactly one of
Success, Decline or Failure. -/
inductive Outcome where
  | success (payload : String)
  | decline (reason : String)
  | failure (e : FailureKind)
deriving DecidableEq, Repr

/-- Modelled from the spec: interpretation of the transport result into an
Outcome, section 4.4 steps 6 and 7, part of the dispatch helper absent
from the sources. -/
def interpret : TransportResult → Outcome
  | TransportResult.err m => Outcome.failure (FailureKind.transport m)
  | TransportResult.ok (GatewayResponse.approved p) => Outcome.success p
  | TransportResult.ok (GatewayResponse.declined r) => Outcome.decline r
  | TransportResult.ok (GatewayResponse.unrecognized d) =>
      Outcome.failure (FailureKind.unexpected d)

/-- The event name of the single terminal event carrying an Outcome (spec
sections 4.3 and 6). -/
def eventName : Outcome → String
  | Outcome.success _ => "success"
  | Outcome.decline _ => "decline"
  | Outcome.failure _ => "error"

/-- The rejection value of the dual object's promise on a non-success
Outcome. -/
inductive RejectReason where
  | declined (reason : String)
  | failed (e : FailureKind)
deriving DecidableEq, Repr

/-- The settled state of the dual object's promise. -/
inductive PromiseState where
  | resolved (payload : String)
  | rejected (r : RejectReason)
deriving DecidableEq, Repr

/-- The dual-purpose return value (PromiseEmitter): an awaitable promise
state together with the list of terminal events emitted. -/
structure DualResult where
  promise : PromiseState
  events : List (String × Outcome)
deriving DecidableEq, Repr

/-- Modelled from the spec: the promise side of the dual object, resolving
with the payload on Success and rejecting on Decline or Failure (spec
section 4.3). -/
def promiseFor : Outcome → PromiseState
  | Outcome.success p => PromiseState.resolved p
  | Outcome.decline r => PromiseState.rejected (RejectReason.declined r)
  | Outcome.failure e => PromiseState.rejected (RejectReason.failed e)

/-- Modelled from the spec: the dual object produced for an Outcome — the
promise settles accordingly and exactly one terminal event is emitted
(spec section 4.3). -/
def mkDual (o : Outcome) : DualResult :=
  { promise := promiseFor o, events := [(eventName o, o)] }

/-- A delivery channel of the terminal Outcome (spec section 4.4 step 8). -/
inductive Channel where
  | callback
  | promise
  | event
deriving DecidableEq, Repr

/-- Modelled from the spec: the single internal completion point (spec
section 9) delivering the Outcome once per active channel — to the
callback when one was resolved by the Invocation Adapter, to the dual
object's promise, and to the terminal event. -/
def deliverAll (cb : Option Nat) (o : Outcome) : List (Channel × Outcome) :=
  (match cb with
   | some _ => [(Channel.callback, o)]
   | none => []) ++ [(Channel.promise, o), (Channel.event, o)]

/-- The number of deliveries observed on one channel. -/
def countChannel : List (Channel × Outcome) → Channel → Nat
  | [], _ => 0
  | d :: rest, c => (if d.1 = c then 1 else 0) + countChannel rest c

/-- The observable record of one dispatch: the operation code passed in,
the transport invocations performed, the terminal Outcome, the per-channel
deliveries, and the dual object returned to the caller. -/
structure DispatchResult where
  opCode : String
  transportCalls : List TransactionRequest
  outcome : Outcome
  deliveries : List (Channel × Outcome)
  dual : DualResult

/-- The dispatch record assembled at the single completion point from the
operation code, the resolved callback, the transport calls made and the
Outcome. -/
def mkResult (opCode : String) (cb : Option Nat) (calls : List TransactionRequest)
    (o : Outcome) : DispatchResult :=
  { opCode := opCode
    transportCalls := calls
    outcome := o
    deliveries := deliverAll cb o
    dual := mkDual o }

/-- Modelled from the spec: the Dispatch Core of section 4.4, the body of
Payworks.request (lib/request.js, loaded at part_000 line 338 but absent
from the sources).  It resolves the invocation style, validates the params
against the schema — on a validation error producing a Failure Outcome
without contacting the transport — otherwise merges credentials, performs
exactly one transport invocation and interprets the response; the Outcome
is then delivered once per active channel. -/
def Payworks.request (self : Payworks) (opCode : String) (schema : List SchemaField)
    (params : Params) (options callback : Option Arg) (transport : Transport) :
    DispatchResult :=
  let a := adaptArgs options callback
  match validate schema params with
  | Except.error e =>
    mkResult opCode a.1 [] (Outcome.failure (FailureKind.validation e))
  | Except.ok normalized =>
    let req : TransactionRequest :=
      { opCode := opCode, fields := normalized, creds := merge self.default (a.2.getD {}) }
    mkResult opCode a.1 [req] (interpret (transport req))

/-- The schema declared in the auth method, src/unnamed/part_000 lines
44-51 (identical literals appear in forceAuth and preAuth). -/
def authSchema : List SchemaField :=
  [ { name := "amount", kind := FieldKind.num, required := true, maxLen := none }
  , { name := "reference", kind := FieldKind.str, required := false, maxLen := none }
  , { name := "entry_mode", kind := FieldKind.str, required := true, maxLen := some 20 }
  , { name := "card_number", kind := FieldKind.str, required := true, maxLen := some 20 }
  , { name := "card_exp", kind := FieldKind.str, required := true, maxLen := some 4 }
  , { name := "security_code", kind := FieldKind.str, required := true, maxLen := some 4 } ]

/-- The schema declared in postAuth, reAuth and refund, part_000 lines
130-133, 152-155 and 174-177. -/
def amountRefSchema : List SchemaField :=
  [ { name := "amount", kind := FieldKind.num, required := true, maxLen := none }
  , { name := "reference", kind := FieldKind.str, required := true, maxLen := none } ]

/-- The schema declared in cancel, suspend and reactivate, part_000 lines
195-197, 296-298 and 316-318. -/
def refSchema : List SchemaField :=
  [ { name := "reference", kind := FieldKind.str, required := true, maxLen := none } ]

/-- The schema declared in reverse, part_000 lines 216-219. -/
def reverseSchema : List SchemaField :=
  [ { name := "reference", kind := FieldKind.str, required := true, maxLen := none }
  , { name := "control_number", kind := FieldKind.str, required := false, maxLen := some 30 } ]

/-- The schema declared in closeGroup, part_000 lines 254-256. -/
def closeGroupSchema : List SchemaField :=
  [ { name := "group", kind := FieldKind.str, required := true, maxLen := none } ]

/-- The schema declared in verify, part_000 lines 275-278. -/
def verifySchema : List SchemaField :=
  [ { name := "reference", kind := FieldKind.str, required := false, maxLen := none }
  , { name := "control_number", kind := FieldKind.str, required := false, maxLen := none } ]

/-- The auth method, part_000 lines 43-54: dispatches AUTH with its schema. -/
def Payworks.auth (self : Payworks) (params : Params) (options callback : Option Arg)
    (transport : Transport) : DispatchResult :=
  Payworks.request self "AUTH" authSchema params options callback transport

/-- The forceAuth method, part_000 lines 73-84: dispatches FORCED_AUTH. -/
def Payworks.forceAuth (self : Payworks) (params : Params) (options callback : Option Arg)
    (transport : Transport) : DispatchResult :=
  Payworks.request self "FORCED_AUTH" authSchema params options callback transport

/-- The preAuth method, part_000 lines 103-114: dispatches PREAUTH. -/
def Payworks.preAuth (self : Payworks) (params : Params) (options callback : Option Arg)
    (transport : Transport) : DispatchResult :=
  Payworks.request self "PREAUTH" authSchema params options callback transport

/-- The postAuth method, part_000 lines 129-136: dispatches POSTAUTH. -/
def Payworks.postAuth (self : Payworks) (params : Params) (options callback : Option Arg)
    (transport : Transport) : DispatchResult :=
  Payworks.request self "POSTAUTH" amountRefSchema params options callback transport

/-- The reAuth method, part_000 lines 151-158: dispatches REAUTH. -/
def Payworks.reAuth (self : Payworks) (params : Params) (options callback : Option Arg)
    (transport : Transport) : DispatchResult :=
  Payworks.request self "REAUTH" amountRefSchema params options callback transport

/-- The refund method, part_000 lines 173-180: dispatches REFUND. -/
def Payworks.refund (self : Payworks) (params : Params) (options callback : Option Arg)
    (transport : Transport) : DispatchResult :=
  Payworks.request self "REFUND" amountRefSchema params options callback transport

/-- The cancel method, part_000 lines 194-200: dispatches VOID. -/
def Payworks.cancel (self : Payworks) (params : Params) (options callback : Option Arg)
    (transport : Transport) : DispatchResult :=
  Payworks.request self "VOID" refSchema params options callback transport

/-- The reverse method, part_000 lines 215-222: dispatches REVERSAL. -/
def Payworks.reverse (self : Payworks) (params : Params) (options callback : Option Arg)
    (transport : Transport) : DispatchResult :=
  Payworks.request self "REVERSAL" reverseSchema params options callback transport

/-- The close method, part_000 lines 235-239: dispatches MCHNT_SETTLEMENT
with an empty schema. -/
def Payworks.close (self : Payworks) (params : Params) (options callback : Option Arg)
    (transport : Transport) : DispatchResult :=
  Payworks.request self "MCHNT_SETTLEMENT" [] params options callback transport

/-- The closeGroup method, part_000 lines 253-259: dispatches
GROUP_SETTLEMENT. -/
def Payworks.closeGroup (self : Payworks) (params : Params) (options callback : Option Arg)
    (transport : Transport) : DispatchResult :=
  Payworks.request self "GROUP_SETTLEMENT" closeGroupSchema params options callback transport

/-- The verify method, part_000 lines 274-281: dispatches VERIFY. -/
def Payworks.verify (self : Payworks) (params : Params) (options callback : Option Arg)
    (transport : Transport) : DispatchResult :=
  Payworks.request self "VERIFY" verifySchema params options callback transport

/-- The suspend method, part_000 lines 295-301: dispatches LOCK. -/
def Payworks.suspend (self : Payworks) (params : Params) (options callback : Option Arg)
    (transport : Transport) : DispatchResult :=
  Payworks.request self "LOCK" refSchema params options callback transport

/-- The reactivate method, part_000 lines 315-321: dispatches UNLOCK. -/
def Payworks.reactivate (self : Payworks) (params : Params) (options callback : Option Arg)
    (transport : Transport) : DispatchResult :=
  Payworks.request self "UNLOCK" refSchema params options callback transport

/-- The dual object returned for an outcome: the promise settles per the
outcome and the single terminal event is the matching one. -/
def DualOk (r : DispatchResult) : Prop :=
  r.dual.events = [(eventName r.outcome, r.outcome)]
  ∧ eventName r.outcome ∈ (["success", "decline", "error"] : List String)
  ∧ r.dual.promise = promiseFor r.outcome

/-- A constructor options object with every falsy credential value dropped,
used to state that falsy values behave exactly like omitted ones. -/
def dropFalsy (o : ConstructorOptions) : ConstructorOptions :=
  { username := o.username
    user := if jsTruthy o.user then o.user else none
    password := if jsTruthy o.password then o.password else none
    merchant := if jsTruthy o.merchant then o.merchant else none
    terminal := if jsTruthy o.terminal then o.terminal else none }

/-- The valid authorization parameters of the spec section 8 scenario. -/
def scenarioParams : Params := fun n =>
  if n = "amount" then some (JsVal.num 10)
  else if n = "entry_mode" then some (JsVal.str "SWIPE")
  else if n = "card_number" then some (JsVal.str "4111111111111111")
  else if n = "card_exp" then some (JsVal.str "1225")
  else if n = "security_code" then some (JsVal.str "123")
  else none

/-- An empty parameter object. -/
def emptyParams : Params := fun _ => none

/-- A parameter object holding only a reference, valid for the VOID
schema. -/
def pRef : Params := fun n => if n = "reference" then some (JsVal.str "abc123") else none

/-- A transport stub returning an approved response. -/
def tr0 : Transport := fun _ => TransportResult.ok (GatewayResponse.approved "ok")

/-- A client built with default user and terminal credentials. -/
def self0 : Payworks :=
  Payworks.constructor (some { user := some (JsVal.str "du"), terminal := some (JsVal.str "dt") })

/-- A per-call options object overriding only the username credential. -/
def o0 : PerCallOptions := { username := some (JsVal.str "ou") }

/-- A constructor options object carrying a username key (which the
operative part_000 constructor never reads) and a falsy password. -/
def optsUsername : ConstructorOptions :=
  { username := some (JsVal.str "u"), password := some (JsVal.str "") }

/-- Checking a field looks only at the value stored under the field name. -/
theorem checkField_congr (f : SchemaField) (p q : Params) (h : q f.name = p f.name) :
    checkField f q = checkField f p := by
  unfold checkField
  rw [h]

/-- A failing field check fails the whole validation. -/
theorem validate_cons_err {f : SchemaField} {rest : List SchemaField} {p : Params}
    {e : ValidationError} (h : checkField f p = some e) :
    validate (f :: rest) p = Except.error e := by
  unfold validate
  rw [h]

/-- A passing field check defers to the remaining fields. -/
theorem validate_cons_ok {f : SchemaField} {rest : List SchemaField} {p : Params}
    (h : checkField f p = none) :
    validate (f :: rest) p = validate rest p := by
  have hv : validate (f :: rest) p
      = match checkField f p with
        | some e => Except.error e
        | none => validate rest p := rfl
  rw [hv, h]

/-- A validation that succeeds passed every field check on the way. -/
theorem validate_ok_elim {f : SchemaField} {rest : List SchemaField} {p : Params}
    (h : validate (f :: rest) p = Except.ok p) :
    checkField f p = none ∧ validate rest p = Except.ok p := by
  cases hc : checkField f p with
  | none =>
    refine ⟨rfl, ?_⟩
    rw [validate_cons_ok hc] at h
    exact h
  | some e =>
    rw [validate_cons_err hc] at h
    exact absurd h (by simp)

/-- A successful validation returns the params unchanged. -/
theorem validate_ok_eq {schema : List SchemaField} {p q : Params}
    (h : validate schema p = Except.ok q) : q = p := by
  induction schema with
  | nil =>
    unfold validate at h
    cases h
    rfl
  | cons f rest ih =>
    cases hc : checkField f p with
    | none =>
      rw [validate_cons_ok hc] at h
      exact ih h
    | some e =>
      rw [validate_cons_err hc] at h
      exact absurd h (by simp)

/-- Dispatch on a validation error: Failure Outcome, no transport call. -/
theorem request_validate_error (self : Payworks) (opCode : String)
    (schema : List SchemaField) (params : Params) (options callback : Option Arg)
    (tr : Transport) (e : ValidationError) (h : validate schema params = Except.error e) :
    Payworks.request self opCode schema params options callback tr
      = mkResult opCode (adaptArgs options callback).1 []
          (Outcome.failure (FailureKind.validation e)) := by
  unfold Payworks.request
  rw [h]

/-- Dispatch on successful validation: one transport call carrying the
operation code, validated fields and merged credentials. -/
theorem request_validate_ok (self : Payworks) (opCode : String)
    (schema : List SchemaField) (params : Params) (options callback : Option Arg)
    (tr : Transport) (h : validate schema params = Except.ok params) :
    Payworks.request self opCode schema params options callback tr
      = mkResult opCode (adaptArgs options callback).1
          [TransactionRequest.mk opCode params
            (merge self.default ((adaptArgs options callback).2.getD {}))]
          (interpret (tr (TransactionRequest.mk opCode params
            (merge self.default ((adaptArgs options callback).2.getD {}))))) := by
  unfold Payworks.request
  rw [h]

/-- Every dispatch record is assembled by mkResult from the resolved
callback and its own outcome. -/
theorem request_shape (self : Payworks) (opCode : String) (schema : List SchemaField)
    (params : Params) (options callback : Option Arg) (tr : Transport) :
    Payworks.request self opCode schema params options callback tr
      = mkResult opCode (adaptArgs options callback).1
          (Payworks.request self opCode schema params options callback tr).transportCalls
          (Payworks.request self opCode schema params options callback tr).outcome := by
  cases h : validate schema params with
  | error e => rw [request_validate_error self opCode schema params options callback tr e h]; rfl
  | ok q =>
    have hq : q = params := validate_ok_eq h
    rw [hq] at h
    rw [request_validate_ok self opCode schema params options callback tr h]
    rfl

/-- The single completion point delivers once to the promise channel, once
to the event channel, and once to the callback channel exactly when a
callback was resolved. -/
theorem count_deliverAll (cb : Option Nat) (o : Outcome) :
    countChannel (deliverAll cb o) Channel.promise = 1
    ∧ countChannel (deliverAll cb o) Channel.event = 1
    ∧ countChannel (deliverAll cb o) Channel.callback = (if cb.isSome then 1 else 0) := by
  cases cb <;> simp [deliverAll, countChannel]

/-- An event name is always one of the three terminal names. -/
theorem eventName_mem (o : Outcome) :
    eventName o ∈ (["success", "decline", "error"] : List String) := by
  cases o <;> simp [eventName]

/-- Every dispatch returns a well-formed dual object. -/
theorem dualOk_request (self : Payworks) (opCode : String) (schema : List SchemaField)
    (params : Params) (options callback : Option Arg) (tr : Transport) :
    DualOk (Payworks.request self opCode schema params options callback tr) := by
  rw [request_shape self opCode schema params options callback tr]
  exact ⟨rfl, eventName_mem _, rfl⟩

/-- Removing a required field from params that validate makes validation
fail naming exactly that field. -/
theorem validate_remove (schema : List SchemaField) (p : Params) (f : String)
    (hOk : validate schema p = Except.ok p) (hmem : f ∈ requiredNames schema) :
    validate schema (removeField p f) = Except.error (ValidationError.missing f) := by
  induction schema with
  | nil => simp [requiredNames] at hmem
  | cons g rest ih =>
    obtain ⟨hg, hrest⟩ := validate_ok_elim hOk
    by_cases hname : g.name = f
    · by_cases hreq : g.required
      · have hc : checkField g (removeField p f) = some (ValidationError.missing g.name) := by
          unfold checkField
          have : removeField p f g.name = none := by simp [removeField, hname]
          rw [this, if_pos hreq]
        rw [validate_cons_err hc, hname]
      · have hmem2 : f ∈ requiredNames rest := by
          unfold requiredNames at hmem
          rw [if_neg hreq] at hmem
          exact hmem
        have hc : checkField g (removeField p f) = none := by
          unfold checkField
          have : removeField p f g.name = none := by simp [removeField, hname]
          rw [this, if_neg hreq]
        rw [validate_cons_ok hc]
        exact ih hrest hmem2
    · have hc : checkField g (removeField p f) = none := by
        rw [checkField_congr g p (removeField p f) (by simp [removeField, hname])]
        exact hg
      have hmem2 : f ∈ requiredNames rest := by
        unfold requiredNames at hmem
        by_cases hreq : g.required
        · rw [if_pos hreq] at hmem
          rcases List.mem_cons.mp hmem with h1 | h1
          · exact absurd h1.symm hname
          · exact h1
        · rw [if_neg hreq] at hmem
          exact hmem
      rw [validate_cons_ok hc]
      exact ih hrest hmem2

/-- Setting a field not declared in the schema leaves the validation
verdict unchanged; on success the extended params are returned. -/
theorem validate_setField (schema : List SchemaField) (p : Params) (n : String) (v : JsVal)
    (h : n ∉ schema.map SchemaField.name) :
    validate schema (setField p n v)
      = Except.map (fun _ => setField p n v) (validate schema p) := by
  induction schema with
  | nil => rfl
  | cons g rest ih =>
    have hgn : g.name ≠ n := by
      intro hh
      exact h (by simp [hh])
    have hrest : n ∉ rest.map SchemaField.name := by
      intro hh
      exact h (by simp [hh])
    have hc : checkField g (setField p n v) = checkField g p :=
      checkField_congr g p (setField p n v) (by simp [setField, hgn])
    cases hcp : checkField g p with
    | some e =>
      rw [validate_cons_err (hc.trans hcp), validate_cons_err hcp]
      rfl
    | none =>
      rw [validate_cons_ok (hc.trans hcp), validate_cons_ok hcp]
      exact ih hrest

/-- The operation code recorded by a dispatch is the one passed in. -/
theorem request_opCode (self : Payworks) (opCode : String) (schema : List SchemaField)
    (params : Params) (options callback : Option Arg) (tr : Transport) :
    (Payworks.request self opCode schema params options callback tr).opCode = opCode := by
  rw [request_shape self opCode schema params options callback tr]
  rfl

/-- Whatever the trailing arguments, an options object in the first
trailing position is the per-call options resolved by the adapter. -/
theorem adaptArgs_obj (o : PerCallOptions) (callback : Option Arg) :
    (adaptArgs (some (Arg.obj o)) callback).2 = some o := by
  cases callback with
  | none => rfl
  | some a => cases a <;> rfl

/-- C1: every call to the dispatch helper Payworks.request delivers the
terminal Outcome exactly once through each active channel: once through
the promise channel, once through the event channel, and once through the
callback channel exactly when the invocation adapter resolved a callback
(zero times otherwise). -/
theorem payworks_c1 (self : Payworks) (opCode : String) (schema : List SchemaField)
    (params : Params) (options callback : Option Arg) (tr : Transport) :
    countChannel (Payworks.request self opCode schema params options callback tr).deliveries
        Channel.promise = 1
    ∧ countChannel (Payworks.request self opCode schema params options callback tr).deliveries
        Channel.event = 1
    ∧ countChannel (Payworks.request self opCode schema params options callback tr).deliveries
        Channel.callback
      = (if (adaptArgs options callback).1.isSome then 1 else 0) := by
  rw [request_shape self opCode schema params options callback tr]
  exact count_deliverAll (adaptArgs options callback).1
    (Payworks.request self opCode schema params options callback tr).outcome

/-- C2: whenever schema validation of the parameters fails, the dispatch
helper produces a Failure Outcome carrying the validation error and never
invokes the transport collaborator. -/
theorem payworks_c2 (self : Payworks) (opCode : String) (schema : List SchemaField)
    (params : Params) (options callback : Option Arg) (tr : Transport)
    (e : ValidationError) (h : validate schema params = Except.error e) :
    (Payworks.request self opCode schema params options callback tr).outcome
        = Outcome.failure (FailureKind.validation e)
    ∧ (Payworks.request self opCode schema params options callback tr).transportCalls = [] := by
  rw [request_validate_error self opCode schema params options callback tr e h]
  exact ⟨rfl, rfl⟩

/-- Witness for C2: dispatching VOID with empty params fails validation on
the missing reference, yields the Failure Outcome and performs zero
transport invocations. -/
theorem payworks_c2_witness :
    validate refSchema emptyParams = Except.error (ValidationError.missing "reference")
    ∧ ((Payworks.request self0 "VOID" refSchema emptyParams none none tr0).outcome
          = Outcome.failure (FailureKind.validation (ValidationError.missing "reference"))
        ∧ (Payworks.request self0 "VOID" refSchema emptyParams none none tr0).transportCalls
          = []) :=
  ⟨rfl, payworks_c2 self0 "VOID" refSchema emptyParams none none tr0
    (ValidationError.missing "reference") rfl⟩

/-- C3: every transaction method, for every combination of params, options
and callback arguments, returns a dual object whose promise resolves with
the payload on Success and rejects on Decline or Failure, and which emits
exactly one terminal event among success, decline and error. -/
theorem payworks_c3 (self : Payworks) (params : Params) (options callback : Option Arg)
    (tr : Transport) :
    DualOk (Payworks.auth self params options callback tr)
    ∧ DualOk (Payworks.forceAuth self params options callback tr)
    ∧ DualOk (Payworks.preAuth self params options callback tr)
    ∧ DualOk (Payworks.postAuth self params options callback tr)
    ∧ DualOk (Payworks.reAuth self params options callback tr)
    ∧ DualOk (Payworks.refund self params options callback tr)
    ∧ DualOk (Payworks.cancel self params options callback tr)
    ∧ DualOk (Payworks.reverse self params options callback tr)
    ∧ DualOk (Payworks.close self params options callback tr)
    ∧ DualOk (Payworks.closeGroup self params options callback tr)
    ∧ DualOk (Payworks.verify self params options callback tr)
    ∧ DualOk (Payworks.suspend self params options callback tr)
    ∧ DualOk (Payworks.reactivate self params options callback tr) :=
  ⟨dualOk_request self "AUTH" authSchema params options callback tr,
   dualOk_request self "FORCED_AUTH" authSchema params options callback tr,
   dualOk_request self "PREAUTH" authSchema params options callback tr,
   dualOk_request self "POSTAUTH" amountRefSchema params options callback tr,
   dualOk_request self "REAUTH" amountRefSchema params options callback tr,
   dualOk_request self "REFUND" amountRefSchema params options callback tr,
   dualOk_request self "VOID" refSchema params options callback tr,
   dualOk_request self "REVERSAL" reverseSchema params options callback tr,
   dualOk_request self "MCHNT_SETTLEMENT" [] params options callback tr,
   dualOk_request self "GROUP_SETTLEMENT" closeGroupSchema params options callback tr,
   dualOk_request self "VERIFY" verifySchema params options callback tr,
   dualOk_request self "LOCK" refSchema params options callback tr,
   dualOk_request self "UNLOCK" refSchema params options callback tr⟩

/-- C4: credential merging is pointwise override-biased — for each of the
four credential roles independently, a field present in the per-call
options wins, otherwise the client default is used, and a field absent
from both stays absent; on a dispatch with per-call options and valid
params, the single transmitted request carries exactly those merged
credentials. -/
theorem payworks_c4 (d : Creds) (o : PerCallOptions) :
    ((merge d o).user = if o.username.isSome then o.username else d.user)
    ∧ ((merge d o).password = if o.password.isSome then o.password else d.password)
    ∧ ((merge d o).merchant_id = if o.merchant.isSome then o.merchant else d.merchant_id)
    ∧ ((merge d o).terminal_id = if o.terminal.isSome then o.terminal else d.terminal_id)
    ∧ ((merge d o).user.isSome = (o.username.isSome || d.user.isSome))
    ∧ ((merge d o).password.isSome = (o.password.isSome || d.password.isSome))
    ∧ ((merge d o).merchant_id.isSome = (o.merchant.isSome || d.merchant_id.isSome))
    ∧ ((merge d o).terminal_id.isSome = (o.terminal.isSome || d.terminal_id.isSome))
    ∧ ∀ (self : Payworks) (opCode : String) (schema : List SchemaField) (params : Params)
        (callback : Option Arg) (tr : Transport),
        validate schema params = Except.ok params →
        (Payworks.request self opCode schema params (some (Arg.obj o)) callback tr).transportCalls
          = [TransactionRequest.mk opCode params (merge self.default o)] := by
  refine ⟨?_, ?_, ?_, ?_, ?_, ?_, ?_, ?_, ?_⟩
  · cases h : o.username <;> simp [merge, firstSome, h]
  · cases h : o.password <;> simp [merge, firstSome, h]
  · cases h : o.merchant <;> simp [merge, firstSome, h]
  · cases h : o.terminal <;> simp [merge, firstSome, h]
  · cases h : o.username <;> cases hd : d.user <;> simp [merge, firstSome, h, hd]
  · cases h : o.password <;> cases hd : d.password <;> simp [merge, firstSome, h, hd]
  · cases h : o.merchant <;> cases hd : d.merchant_id <;> simp [merge, firstSome, h, hd]
  · cases h : o.terminal <;> cases hd : d.terminal_id <;> simp [merge, firstSome, h, hd]
  · intro self opCode schema params callback tr hv
    rw [request_validate_ok self opCode schema params (some (Arg.obj o)) callback tr hv]
    rw [adaptArgs_obj o callback]
    rfl

/-- Witness for C4: a close-style dispatch with an empty schema, a
per-call username override and default user/terminal credentials transmits
one request carrying the merged credentials. -/
theorem payworks_c4_witness :
    validate ([] : List SchemaField) emptyParams = Except.ok emptyParams
    ∧ (Payworks.request self0 "MCHNT_SETTLEMENT" [] emptyParams (some (Arg.obj o0)) none
          tr0).transportCalls
      = [TransactionRequest.mk "MCHNT_SETTLEMENT" emptyParams (merge self0.default o0)] :=
  ⟨rfl, (payworks_c4 self0.default o0).2.2.2.2.2.2.2.2 self0 "MCHNT_SETTLEMENT" []
    emptyParams none tr0 rfl⟩

/-- Counterexample for C5 as stated: the operative part_000 constructor
reads options.user, not options.username, so a client constructed with a
username key (and a falsy password) records neither value — the user
property stays undefined and the default credential set stays empty. -/
theorem payworks_c5_counterexample :
    (Payworks.constructor (some optsUsername)).user = none
    ∧ (Payworks.constructor (some optsUsername)).default.user = none
    ∧ (Payworks.constructor (some optsUsername)).password = some (JsVal.str "")
    ∧ (Payworks.constructor (some optsUsername)).default.password = none :=
  ⟨rfl, rfl, rfl, rfl⟩

/-- C5 (amended): the part_000 client constructor accepts the options
object with optional user, password, merchant and terminal fields; each is
stored on the instance, and a truthy supplied value is recorded as a
default credential under the keys user, password, merchant_id and
terminal_id, while a field absent (or falsy) yields no default for that
role. -/
theorem payworks_c5 (o : ConstructorOptions) :
    (Payworks.constructor (some o)).user = o.user
    ∧ (Payworks.constructor (some o)).password = o.password
    ∧ (Payworks.constructor (some o)).merchant_id = o.merchant
    ∧ (Payworks.constructor (some o)).terminal_id = o.terminal
    ∧ (Payworks.constructor (some o)).default.user
        = (if jsTruthy o.user then o.user else none)
    ∧ (Payworks.constructor (some o)).default.password
        = (if jsTruthy o.password then o.password else none)
    ∧ (Payworks.constructor (some o)).default.merchant_id
        = (if jsTruthy o.merchant then o.merchant else none)
    ∧ (Payworks.constructor (some o)).default.terminal_id
        = (if jsTruthy o.terminal then o.terminal else none) :=
  ⟨rfl, rfl, rfl, rfl, rfl, rfl, rfl, rfl⟩

/-- C6: a field present in the params but not declared in the schema never
changes the validation verdict (permissive superset policy), and on a
successful validation it is passed through into the transmitted request. -/
theorem payworks_c6 (schema : List SchemaField) (p : Params) (n : String) (v : JsVal)
    (h : n ∉ schema.map SchemaField.name) :
    validate schema (setField p n v)
        = Except.map (fun _ => setField p n v) (validate schema p)
    ∧ ∀ (self : Payworks) (opCode : String) (options callback : Option Arg) (tr : Transport),
        validate schema p = Except.ok p →
        (Payworks.request self opCode schema (setField p n v) options callback
            tr).transportCalls.map (fun r => r.fields n)
          = [some v] := by
  refine ⟨validate_setField schema p n v h, ?_⟩
  intro self opCode options callback tr hv
  have h1 : validate schema (setField p n v) = Except.ok (setField p n v) := by
    rw [validate_setField schema p n v h, hv]
    rfl
  rw [request_validate_ok self opCode schema (setField p n v) options callback tr h1]
  simp [mkResult, setField]

/-- Witness for C6: adding an undeclared extra field to a valid VOID
parameter object neither fails validation nor is dropped from the
transmitted request. -/
theorem payworks_c6_witness :
    ("extra" ∉ refSchema.map SchemaField.name)
    ∧ validate refSchema (setField pRef "extra" (JsVal.str "x"))
        = Except.map (fun _ => setField pRef "extra" (JsVal.str "x")) (validate refSchema pRef)
    ∧ validate refSchema pRef = Except.ok pRef
    ∧ (Payworks.request self0 "VOID" refSchema (setField pRef "extra" (JsVal.str "x")) none
          none tr0).transportCalls.map (fun r => r.fields "extra")
      = [some (JsVal.str "x")] := by
  have hn : ("extra" : String) ∉ refSchema.map SchemaField.name := by decide
  have hv : validate refSchema pRef = Except.ok pRef := rfl
  exact ⟨hn, (payworks_c6 refSchema pRef "extra" (JsVal.str "x") hn).1, hv,
    (payworks_c6 refSchema pRef "extra" (JsVal.str "x") hn).2 self0 "VOID" none none tr0 hv⟩

/-- C7: calling auth on the spec scenario parameters with card_exp omitted
yields a Failure Outcome carrying a ValidationError naming card_exp and
performs zero transport invocations; and in general, for any params that
validate against the AUTH schema, omitting any one required field makes
validation fail naming exactly that field. -/
theorem payworks_c7 :
    (∀ (self : Payworks) (tr : Transport),
        (Payworks.auth self (removeField scenarioParams "card_exp") none none tr).outcome
          = Outcome.failure (FailureKind.validation (ValidationError.missing "card_exp"))
        ∧ (Payworks.auth self (removeField scenarioParams "card_exp") none none
              tr).transportCalls = [])
    ∧ ∀ (p : Params), validate authSchema p = Except.ok p →
        ∀ f, f ∈ requiredNames authSchema →
          validate authSchema (removeField p f) = Except.error (ValidationError.missing f) :=
  ⟨fun _ _ => ⟨rfl, rfl⟩,
   fun p hOk f hmem => validate_remove authSchema p f hOk hmem⟩

/-- Witness for C7: the scenario parameters validate against the AUTH
schema, card_exp is among its required fields, and removing card_exp makes
validation fail naming card_exp. -/
theorem payworks_c7_witness :
    validate authSchema scenarioParams = Except.ok scenarioParams
    ∧ "card_exp" ∈ requiredNames authSchema
    ∧ validate authSchema (removeField scenarioParams "card_exp")
        = Except.error (ValidationError.missing "card_exp") := by
  have h1 : validate authSchema scenarioParams = Except.ok scenarioParams := rfl
  have h2 : "card_exp" ∈ requiredNames authSchema := by decide
  exact ⟨h1, h2, payworks_c7.2 scenarioParams h1 "card_exp" h2⟩

/-- C8: each transaction method passes its fixed gateway operation code to
the dispatch helper, for every input: auth AUTH, forceAuth FORCED_AUTH,
preAuth PREAUTH, postAuth POSTAUTH, reAuth REAUTH, refund REFUND, cancel
VOID, reverse REVERSAL, close MCHNT_SETTLEMENT, closeGroup
GROUP_SETTLEMENT, verify VERIFY, suspend LOCK, reactivate UNLOCK. -/
theorem payworks_c8 (self : Payworks) (params : Params) (options callback : Option Arg)
    (tr : Transport) :
    (Payworks.auth self params options callback tr).opCode = "AUTH"
    ∧ (Payworks.forceAuth self params options callback tr).opCode = "FORCED_AUTH"
    ∧ (Payworks.preAuth self params options callback tr).opCode = "PREAUTH"
    ∧ (Payworks.postAuth self params options callback tr).opCode = "POSTAUTH"
    ∧ (Payworks.reAuth self params options callback tr).opCode = "REAUTH"
    ∧ (Payworks.refund self params options callback tr).opCode = "REFUND"
    ∧ (Payworks.cancel self params options callback tr).opCode = "VOID"
    ∧ (Payworks.reverse self params options callback tr).opCode = "REVERSAL"
    ∧ (Payworks.close self params options callback tr).opCode = "MCHNT_SETTLEMENT"
    ∧ (Payworks.closeGroup self params options callback tr).opCode = "GROUP_SETTLEMENT"
    ∧ (Payworks.verify self params options callback tr).opCode = "VERIFY"
    ∧ (Payworks.suspend self params options callback tr).opCode = "LOCK"
    ∧ (Payworks.reactivate self params options callback tr).opCode = "UNLOCK" :=
  ⟨request_opCode self "AUTH" authSchema params options callback tr,
   request_opCode self "FORCED_AUTH" authSchema params options callback tr,
   request_opCode self "PREAUTH" authSchema params options callback tr,
   request_opCode self "POSTAUTH" amountRefSchema params options callback tr,
   request_opCode self "REAUTH" amountRefSchema params options callback tr,
   request_opCode self "REFUND" amountRefSchema params options callback tr,
   request_opCode self "VOID" refSchema params options callback tr,
   request_opCode self "REVERSAL" reverseSchema params options callback tr,
   request_opCode self "MCHNT_SETTLEMENT" [] params options callback tr,
   request_opCode self "GROUP_SETTLEMENT" closeGroupSchema params options callback tr,
   request_opCode self "VERIFY" verifySchema params options callback tr,
   request_opCode self "LOCK" refSchema params options callback tr,
   request_opCode self "UNLOCK" refSchema params options callback tr⟩

/-- C9: constructing a client with no options succeeds and leaves all four
credential properties undefined and the default credential set empty, in
both the operative part_000 class and the legacy src/lib/index.js class. -/
theorem payworks_c9 :
    (Payworks.constructor none).user = none
    ∧ (Payworks.constructor none).password = none
    ∧ (Payworks.constructor none).merchant_id = none
    ∧ (Payworks.constructor none).terminal_id = none
    ∧ (Payworks.constructor none).default = ({} : Creds)
    ∧ (PayworksIndex.constructor none).username = none
    ∧ (PayworksIndex.constructor none).password = none
    ∧ (PayworksIndex.constructor none).merchant = none
    ∧ (PayworksIndex.constructor none).terminal = none :=
  ⟨rfl, rfl, rfl, rfl, rfl, rfl, rfl, rfl, rfl⟩

/-- A conditionally recorded default key is present iff the value was
truthy. -/
theorem defaultField_isSome (x : Option JsVal) :
    (if jsTruthy x then x else none).isSome = jsTruthy x := by
  cases x with
  | none => simp [jsTruthy]
  | some v => cases h : v.truthy <;> simp [jsTruthy, h]

/-- Recording a default from an already truthiness-filtered value changes
nothing. -/
theorem defaultField_idem (x : Option JsVal) :
    (if jsTruthy (if jsTruthy x then x else none) then (if jsTruthy x then x else none)
      else none)
      = (if jsTruthy x then x else none) := by
  cases h : jsTruthy x <;> simp [h]

/-- C10: after construction, the default credential set contains a key iff
the corresponding constructor option was truthy, and a falsy supplied
credential is dropped exactly as if it had been omitted — construction
from the truthiness-filtered options yields the same default set. -/
theorem payworks_c10 (o : ConstructorOptions) :
    ((Payworks.constructor (some o)).default.user.isSome = jsTruthy o.user)
    ∧ ((Payworks.constructor (some o)).default.password.isSome = jsTruthy o.password)
    ∧ ((Payworks.constructor (some o)).default.merchant_id.isSome = jsTruthy o.merchant)
    ∧ ((Payworks.constructor (some o)).default.terminal_id.isSome = jsTruthy o.terminal)
    ∧ (Payworks.constructor (some o)).default
        = (Payworks.constructor (some (dropFalsy o))).default := by
  refine ⟨defaultField_isSome o.user, defaultField_isSome o.password,
    defaultField_isSome o.merchant, defaultField_isSome o.terminal, ?_⟩
  simp only [Payworks.constructor, dropFalsy, Option.getD]
  simp only [Creds.mk.injEq]
  exact ⟨(defaultField_idem o.user).symm, (defaultField_idem o.password).symm,
    (defaultField_idem o.merchant).symm, (defaultField_idem o.terminal).symm⟩
